import Mathlib

/-!
Verification of the Image Stack Transform Engine (`blitz/data/image.py`).

The image stack is modelled as a list of frames, a frame as a list of rows,
a row as a list of rational pixel values; numpy floating-point arithmetic is
idealized as exact arithmetic over ℚ.  The `ImageData` class is a structure
with the same fields; each method becomes a pure state transformer (methods
returning a success flag return `Bool × ImageData`).
-/

namespace Blitz

/-- One row of pixel values. -/
abbrev Row := List ℚ

/-- One 2-D frame: a list of rows. -/
abbrev Frame := List Row

/-- A 3-D volume: frame axis, then rows (axis 1), then columns (axis 2). -/
abbrev Vol := List Frame

/-- Normalized endpoint of a numpy basic slice on an axis of length `n`:
a negative index counts from the end, and endpoints are clamped to `[0, n]`
(semantics of `slice.indices` with step 1). -/
def npIdx (i : ℤ) (n : ℕ) : ℕ :=
  if i < 0 then (i + n).toNat else min i.toNat n

/-- The numpy basic slice `l[a:b]` (step 1) on a list. -/
def npSlice {α : Type} (a b : ℤ) (l : List α) : List α :=
  (l.drop (npIdx a l.length)).take (npIdx b l.length - npIdx a l.length)

/-- Elementwise binary operation of two frames (numpy broadcasting over
equal-shaped 2-D arrays). -/
def zip2D (f : ℚ → ℚ → ℚ) (a b : Frame) : Frame :=
  List.zipWith (List.zipWith f) a b

/-- Elementwise unary map over a frame. -/
def map2D (f : ℚ → ℚ) (a : Frame) : Frame :=
  a.map (List.map f)

/-- Scalar multiple of a frame (`beta * arr`). -/
def scaleFrame (beta : ℚ) (a : Frame) : Frame :=
  map2D (fun x => beta * x) a

/-- Elementwise sum of a stack of frames along the frame axis. -/
def sumFrames : Vol → Frame
  | [] => []
  | f :: fs => fs.foldl (zip2D (fun a b => a + b)) f

/-- The per-pixel mean over the frame axis, `np.mean(v, axis=0)`
(`v.mean(axis=0)` in the source).  On an empty stack numpy warns and
returns nan; the model returns the empty frame (never reached: a loaded
stack has at least one frame). -/
def npMeanFrames (v : Vol) : Frame :=
  map2D (fun x => x / (v.length : ℚ)) (sumFrames v)

/-- The reduction `np.expand_dims(v.min(0), axis=0)`: per-pixel minimum
over the frame axis, kept as a single-frame volume. -/
def npMinVol (v : Vol) : Vol :=
  match v with
  | [] => []
  | f :: fs => [fs.foldl (zip2D min) f]

/-- The reduction `np.expand_dims(v.max(0), axis=0)`. -/
def npMaxVol (v : Vol) : Vol :=
  match v with
  | [] => []
  | f :: fs => [fs.foldl (zip2D max) f]

/-- The reduction `np.expand_dims(v.mean(0), axis=0)`. -/
def npMeanVol (v : Vol) : Vol :=
  match v with
  | [] => []
  | _ :: _ => [npMeanFrames v]

/-- The reduction `np.expand_dims(v.std(0), axis=0)`.  In the source this is
the square root of the per-pixel variance (mean of squares minus square of
the mean); square roots of rationals are irrational in general and no
property below depends on the numeric values of the std reduction (only on
its caching and its shape), so the model stores the per-pixel variance. -/
def npStdVol (v : Vol) : Vol :=
  match v with
  | [] => []
  | _ :: _ =>
      [zip2D (fun a b => a - b * b)
        (npMeanFrames (v.map (map2D (fun x => x * x)))) (npMeanFrames v)]

/-- The stored spatial mask `(slice(None), slice(xStart, xStop),
slice(yStart, yStop))`; the frame-axis slice is always the full slice, so
only the row (axis-1, x) and column (axis-2, y) endpoints are stored. -/
structure MaskSlices where
  xStart : ℤ
  xStop : ℤ
  yStart : ℤ
  yStop : ℤ
deriving DecidableEq

/-- Application of the stored mask, `image[self._mask]`: rows sliced by
the x slice, columns by the y slice, frame axis untouched. -/
def applyMaskSlices (m : MaskSlices) (v : Vol) : Vol :=
  v.map (fun fr => (npSlice m.xStart m.xStop fr).map (npSlice m.yStart m.yStop))

/-- One per-frame metadata record; the model keeps only the display name
(the source stores an arbitrary dict). -/
structure MetaRecord where
  name : String
deriving DecidableEq

/-- The reduction kinds, `Literal['min', 'max', 'mean', 'std']`. -/
inductive ReduceOp
  | rmin
  | rmax
  | rmean
  | rstd
deriving DecidableEq

/-- The normalization operations, `Literal["subtract", "divide"]`. -/
inductive NormOp
  | subtract
  | divide
deriving DecidableEq

/-- The `ImageData` object state: raw stack, metadata, the four reduction
caches, the mask, the three orientation flags, the active reduction tag,
the normalization cache and its tag. -/
structure ImageData where
  _image : Vol
  _meta : List MetaRecord
  _min : Option Vol
  _max : Option Vol
  _mean : Option Vol
  _std : Option Vol
  _mask : Option MaskSlices
  _transposed : Bool
  _flipped_x : Bool
  _flipped_y : Bool
  _reduce_operation : Option ReduceOp
  _norm : Option Vol
  _norm_operation : Option NormOp
deriving DecidableEq

/-- Constructor `ImageData.__init__`: stores the stack and metadata, all caches empty,
all flags off. -/
def ImageData.init (image : Vol) (metadata : List MetaRecord) : ImageData :=
  { _image := image
    _meta := metadata
    _min := none
    _max := none
    _mean := none
    _std := none
    _mask := none
    _transposed := false
    _flipped_x := false
    _flipped_y := false
    _reduce_operation := none
    _norm := none
    _norm_operation := none }

/-- Method `ImageData.reset`: clears every cache and view-state field, leaving the
raw stack and the metadata untouched. -/
def ImageData.reset (s : ImageData) : ImageData :=
  { s with
    _min := none
    _max := none
    _mean := none
    _std := none
    _mask := none
    _transposed := false
    _flipped_x := false
    _flipped_y := false
    _reduce_operation := none
    _norm := none
    _norm_operation := none }

/-- The accessor property `ImageData.image`: select the base by the active
reduction tag (the source reads the matching cache with a `type: ignore`;
a tag whose cache is unset is unreachable, modelled by `Option.getD` on the
raw stack), override it with the normalization cache when set, then apply
the mask, then transpose (`np.swapaxes(image, 1, 2)`), then flip axis 1,
then flip axis 2. -/
def ImageData.image (s : ImageData) : Vol :=
  let base : Vol :=
    match s._reduce_operation with
    | some ReduceOp.rmin => s._min.getD s._image
    | some ReduceOp.rmax => s._max.getD s._image
    | some ReduceOp.rmean => s._mean.getD s._image
    | some ReduceOp.rstd => s._std.getD s._image
    | none => s._image
  let withNorm : Vol :=
    match s._norm with
    | some n => n
    | none => base
  let masked : Vol :=
    match s._mask with
    | some m => applyMaskSlices m withNorm
    | none => withNorm
  let t : Vol := if s._transposed then masked.map List.transpose else masked
  let fx : Vol := if s._flipped_x then t.map List.reverse else t
  if s._flipped_y then fx.map (List.map List.reverse) else fx

/-- The property `ImageData.n_images`: `self._image.shape[0]`. -/
def ImageData.n_images (s : ImageData) : ℕ :=
  s._image.length

/-- Method `ImageData.reduce`: fill the cache of the requested kind if it is still
empty, then mark the kind active.  The parameter is an `Option` because
`mask` re-invokes `reduce` with the possibly-`None` previous tag (a
`type: ignore` call in the source); `None` matches no case and only
re-assigns the tag. -/
def ImageData.reduce (operation : Option ReduceOp) (s : ImageData) : ImageData :=
  let s1 : ImageData :=
    match operation with
    | some ReduceOp.rmin =>
        if s._min = none then { s with _min := some (npMinVol s._image) } else s
    | some ReduceOp.rmax =>
        if s._max = none then { s with _max := some (npMaxVol s._image) } else s
    | some ReduceOp.rmean =>
        if s._mean = none then { s with _mean := some (npMeanVol s._image) } else s
    | some ReduceOp.rstd =>
        if s._std = none then { s with _std := some (npStdVol s._image) } else s
    | none => s
  { s1 with _reduce_operation := operation }

/-- Shape of a 2-D array, `(arr.shape[0], arr.shape[1])`; model frames are
rectangular wherever they model numpy arrays, so the column count is read
off the first row. -/
def frameShape (f : Frame) : ℕ × ℕ :=
  (f.length, (f.headD []).length)

/-- Shape `image.shape[1:]` of a 3-D volume: the shape of one frame. -/
def volTailShape (v : Vol) : ℕ × ℕ :=
  frameShape (v.headD [])

/-- The assignment `image - mean` respectively `image / mean`: the 2-D
reference is broadcast across the frame axis.  Division by zero is `0` in
ℚ where numpy floats would give inf/nan with a warning; no property below
divides by zero. -/
def broadcastOp (operation : NormOp) (v : Vol) (m : Frame) : Vol :=
  match operation with
  | NormOp.subtract => v.map (fun fr => zip2D (fun a b => a - b) fr m)
  | NormOp.divide => v.map (fun fr => zip2D (fun a b => a / b) fr m)

/-- Method `ImageData.normalize`, line by line: reject when a reduction is active;
toggle off when the same operation is active and no recomputation is
forced; clear the cached volume when any normalization is active; read the
current view `self.image`; compute the range mean when both endpoints are
given; compute the reference mean and reject on shape mismatch when a
reference is given; reject when neither endpoints nor reference are given;
assign the range result then the reference result (last write wins); set
the operation tag and report success. -/
def ImageData.normalize (operation : NormOp) (beta : ℚ)
    (left right : Option ℤ) (reference : Option ImageData)
    (force_calculation : Bool) (s : ImageData) : Bool × ImageData :=
  if s._reduce_operation ≠ none then
    (false, s)
  else if s._norm_operation = some operation ∧ force_calculation = false then
    (true, { s with _norm_operation := none, _norm := none })
  else
    let s1 : ImageData :=
      if s._norm_operation ≠ none then { s with _norm := none } else s
    let image := s1.image
    let mean_range : Option Frame :=
      match left, right with
      | some l, some r =>
          some (scaleFrame beta (npMeanFrames (npSlice l (r + 1) image)))
      | _, _ => none
    let mean_ref : Option Frame :=
      match reference with
      | some ref => some (npMeanFrames ref.image)
      | none => none
    if (match mean_ref with
        | some m => decide (frameShape m ≠ volTailShape image)
        | none => false) then
      (false, s1)
    else if left = none ∧ right = none ∧ reference = none then
      (false, s1)
    else
      let afterRange : Option Vol :=
        match mean_range with
        | some m => some (broadcastOp operation image m)
        | none => s1._norm
      let afterRef : Option Vol :=
        match mean_ref with
        | some m => some (broadcastOp operation image m)
        | none => afterRange
      (true, { s1 with _norm := afterRef, _norm_operation := some operation })

/-- Method `ImageData.unravel`: clears the active-reduction tag only. -/
def ImageData.unravel (s : ImageData) : ImageData :=
  { s with _reduce_operation := none }

/-- Number of rows of each frame, `self._image.shape[1]`. -/
def volShape1 (v : Vol) : ℕ :=
  (v.headD []).length

/-- Number of columns of each frame, `self._image.shape[2]`. -/
def volShape2 (v : Vol) : ℕ :=
  ((v.headD []).headD []).length

/-- Method `ImageData.mask`: rejected while flipped or transposed; clamps the
requested rectangle to the raw stack's row/column bounds; offsets by the
previous mask's origin when one is active; captures the active reduction
tag, resets, re-runs `reduce` on that tag, and stores the new slices.  ROI
position and size are modelled as integers (the source truncates the
float ROI coordinates with `int(...)`). -/
def ImageData.mask (pos size : ℤ × ℤ) (s : ImageData) : ImageData :=
  if s._transposed || s._flipped_x || s._flipped_y then s
  else
    let x_start : ℤ := max 0 pos.1
    let y_start : ℤ := max 0 pos.2
    let x_stop : ℤ := min (volShape1 s._image : ℤ) (pos.1 + size.1)
    let y_stop : ℤ := min (volShape2 s._image : ℤ) (pos.2 + size.2)
    let bounds : ℤ × ℤ × ℤ × ℤ :=
      match s._mask with
      | some m =>
          (x_start + m.xStart, x_stop + m.xStart,
           y_start + m.yStart, y_stop + m.yStart)
      | none => (x_start, x_stop, y_start, y_stop)
    let op := s._reduce_operation
    let s1 := (s.reset).reduce op
    { s1 with
      _mask := some
        { xStart := bounds.1, xStop := bounds.2.1,
          yStart := bounds.2.2.1, yStop := bounds.2.2.2 } }

/-- Method `ImageData.transpose`: toggles the transposed flag. -/
def ImageData.transpose (s : ImageData) : ImageData :=
  { s with _transposed := !s._transposed }

/-- Method `ImageData.flip_x`: toggles the axis-1 flip flag. -/
def ImageData.flip_x (s : ImageData) : ImageData :=
  { s with _flipped_x := !s._flipped_x }

/-- Method `ImageData.flip_y`: toggles the axis-2 flip flag. -/
def ImageData.flip_y (s : ImageData) : ImageData :=
  { s with _flipped_y := !s._flipped_y }

/-- One mutating call of the engine's public interface (the Bool result of
`normalize` is discarded when sequencing). -/
inductive Op
  | reduceOp (kind : ReduceOp)
  | unravelOp
  | normalizeOp (operation : NormOp) (beta : ℚ) (left right : Option ℤ)
      (reference : Option ImageData) (force_calculation : Bool)
  | maskOp (pos size : ℤ × ℤ)
  | transposeOp
  | flipXOp
  | flipYOp
  | resetOp

/-- Apply one operation to a state. -/
def applyOp (o : Op) (s : ImageData) : ImageData :=
  match o with
  | Op.reduceOp kind => s.reduce (some kind)
  | Op.unravelOp => s.unravel
  | Op.normalizeOp operation beta left right reference force_calculation =>
      (s.normalize operation beta left right reference force_calculation).2
  | Op.maskOp pos size => s.mask pos size
  | Op.transposeOp => s.transpose
  | Op.flipXOp => s.flip_x
  | Op.flipYOp => s.flip_y
  | Op.resetOp => s.reset

/-- Apply a sequence of operations from left to right. -/
def applyOps (ops : List Op) (s : ImageData) : ImageData :=
  ops.foldl (fun t o => applyOp o t) s

/-- The cache field belonging to a reduction kind (`self._min` … `self._std`). -/
def cacheField : ReduceOp → ImageData → Option Vol
  | ReduceOp.rmin, s => s._min
  | ReduceOp.rmax, s => s._max
  | ReduceOp.rmean, s => s._mean
  | ReduceOp.rstd, s => s._std

/-- Test stack of shape `(1, 2, 2)`. -/
def rawA : Vol := [[[(1 : ℚ), 2], [3, 4]]]

/-- Engine loaded with `rawA`. -/
def stA : ImageData := ImageData.init rawA [⟨"f0"⟩]

/-- Test stack of shape `(2, 1, 1)` with two distinct frames. -/
def rawB : Vol := [[[(0 : ℚ)]], [[(2 : ℚ)]]]

/-- Engine loaded with `rawB`. -/
def stB : ImageData := ImageData.init rawB [⟨"a"⟩, ⟨"b"⟩]

/-- A reference image of shape `(1, 1, 1)`, incompatible with `rawA` frames. -/
def refSmall : ImageData := ImageData.init [[[(5 : ℚ)]]] [⟨"r"⟩]

/-- Test stack of shape `(10, 100, 100)` (the shape named by the spec's
mask-composition property). -/
def rawBig : Vol :=
  List.replicate 10 (List.replicate 100 (List.replicate 100 (0 : ℚ)))

/-- Engine loaded with `rawBig`. -/
def stBig : ImageData := ImageData.init rawBig []

/-- Test stack of shape `(1, 5, 5)`. -/
def rawSmall5 : Vol := [List.replicate 5 (List.replicate 5 (0 : ℚ))]

/-- Engine loaded with `rawSmall5`. -/
def stSmall5 : ImageData := ImageData.init rawSmall5 []

/-- State of `stB` after a successful subtract normalization over the full
frame range followed by a min reduction: both the normalization cache and
the min cache are populated and the reduction is active. -/
def stBnormMin : ImageData :=
  ((stB.normalize NormOp.subtract 1 (some 0) (some 1) none false).2).reduce
    (some ReduceOp.rmin)

/-- State of `stA` after a successful subtract normalization over the frame
range `[0, 0]`. -/
def stAsub : ImageData :=
  (stA.normalize NormOp.subtract 1 (some 0) (some 0) none false).2

/-- State of `stB` with the min reduction active. -/
def stBmin : ImageData := stB.reduce (some ReduceOp.rmin)

/-- Reduction never touches the raw stack. -/
theorem reduce_image_field (op : Option ReduceOp) (s : ImageData) :
    (s.reduce op)._image = s._image := by
  unfold ImageData.reduce
  rcases op with _ | k
  · rfl
  · cases k <;> dsimp only <;> split <;> rfl

/-- Reduction never touches the metadata. -/
theorem reduce_meta_field (op : Option ReduceOp) (s : ImageData) :
    (s.reduce op)._meta = s._meta := by
  unfold ImageData.reduce
  rcases op with _ | k
  · rfl
  · cases k <;> dsimp only <;> split <;> rfl

/-- Normalization never touches the raw stack. -/
theorem normalize_image_field (op : NormOp) (beta : ℚ) (l r : Option ℤ)
    (ref : Option ImageData) (fc : Bool) (s : ImageData) :
    ((s.normalize op beta l r ref fc).2)._image = s._image := by
  unfold ImageData.normalize
  dsimp only
  repeat' split
  all_goals rfl

/-- Normalization never touches the metadata. -/
theorem normalize_meta_field (op : NormOp) (beta : ℚ) (l r : Option ℤ)
    (ref : Option ImageData) (fc : Bool) (s : ImageData) :
    ((s.normalize op beta l r ref fc).2)._meta = s._meta := by
  unfold ImageData.normalize
  dsimp only
  repeat' split
  all_goals rfl

/-- Masking never touches the raw stack. -/
theorem mask_image_field (pos size : ℤ × ℤ) (s : ImageData) :
    (s.mask pos size)._image = s._image := by
  unfold ImageData.mask
  split
  · rfl
  · dsimp only
    rw [show (∀ t : ImageData, ∀ m, ({ t with _mask := m } : ImageData)._image
        = t._image) from fun _ _ => rfl]
    rw [reduce_image_field]
    rfl

/-- Masking never touches the metadata. -/
theorem mask_meta_field (pos size : ℤ × ℤ) (s : ImageData) :
    (s.mask pos size)._meta = s._meta := by
  unfold ImageData.mask
  split
  · rfl
  · dsimp only
    rw [show (∀ t : ImageData, ∀ m, ({ t with _mask := m } : ImageData)._meta
        = t._meta) from fun _ _ => rfl]
    rw [reduce_meta_field]
    rfl

/-- No single operation of the interface touches the raw stack. -/
theorem applyOp_image_field (o : Op) (s : ImageData) :
    (applyOp o s)._image = s._image := by
  cases o with
  | reduceOp kind => exact reduce_image_field (some kind) s
  | unravelOp => rfl
  | normalizeOp op beta l r ref fc => exact normalize_image_field op beta l r ref fc s
  | maskOp pos size => exact mask_image_field pos size s
  | transposeOp => rfl
  | flipXOp => rfl
  | flipYOp => rfl
  | resetOp => rfl

/-- No single operation of the interface touches the metadata. -/
theorem applyOp_meta_field (o : Op) (s : ImageData) :
    (applyOp o s)._meta = s._meta := by
  cases o with
  | reduceOp kind => exact reduce_meta_field (some kind) s
  | unravelOp => rfl
  | normalizeOp op beta l r ref fc => exact normalize_meta_field op beta l r ref fc s
  | maskOp pos size => exact mask_meta_field pos size s
  | transposeOp => rfl
  | flipXOp => rfl
  | flipYOp => rfl
  | resetOp => rfl

/-- No sequence of operations touches the raw stack. -/
theorem applyOps_image_field (ops : List Op) (s : ImageData) :
    (applyOps ops s)._image = s._image := by
  induction ops generalizing s with
  | nil => rfl
  | cons o os ih =>
      have h : applyOps (o :: os) s = applyOps os (applyOp o s) := rfl
      rw [h, ih, applyOp_image_field]

/-- No sequence of operations touches the metadata. -/
theorem applyOps_meta_field (ops : List Op) (s : ImageData) :
    (applyOps ops s)._meta = s._meta := by
  induction ops generalizing s with
  | nil => rfl
  | cons o os ih =>
      have h : applyOps (o :: os) s = applyOps os (applyOp o s) := rfl
      rw [h, ih, applyOp_meta_field]

/-- After a reset, the accessor returns the raw stack unchanged. -/
theorem reset_image_eval (s : ImageData) : (s.reset).image = s._image := rfl

/-- C1: the claim is false.  On the stack `rawA` of shape `(1, 2, 2)` with
the mask `rows [1, 2), cols [1, 2)` active, `normalize` succeeds but
computes its cache from the masked view, and `current_image` applies the
mask to that cache a second time, giving an empty `(1, 0, 0)` result —
not the `(1, 1, 1)` crop of the normalization of the unmasked stack. -/
theorem C1_counterexample :
    (stA.mask (1, 1) (1, 1))._mask = some ⟨1, 2, 1, 2⟩ ∧
    ((stA.mask (1, 1) (1, 1)).normalize NormOp.subtract 1 (some 0) (some 0)
        none false).1 = true ∧
    ((stA.mask (1, 1) (1, 1)).normalize NormOp.subtract 1 (some 0) (some 0)
          none false).2.image ≠
      applyMaskSlices ⟨1, 2, 1, 2⟩
        ((stA.normalize NormOp.subtract 1 (some 0) (some 0) none
            false).2._norm.getD []) := by
  decide

/-- C2: the claim is false.  After a successful subtract normalization on
`stB` followed by `reduce(min)`, the reduction is active and both caches
are set, yet `current_image` returns the normalization cache, not the min
reduction cache entry. -/
theorem C2_counterexample :
    stBnormMin._reduce_operation = some ReduceOp.rmin ∧
    stBnormMin._min.isSome = true ∧
    stBnormMin._norm.isSome = true ∧
    stBnormMin.image = stBnormMin._norm.getD [] ∧
    stBnormMin.image.length = 2 ∧
    (stBnormMin._min.getD []).length = 1 ∧
    stBnormMin.image ≠ stBnormMin._min.getD [] := by
  have hlen2 : stBnormMin.image.length = 2 := by decide
  have hlen1 : (stBnormMin._min.getD []).length = 1 := by decide
  refine ⟨by decide, by decide, by decide, rfl, hlen2, hlen1, fun h => ?_⟩
  rw [h, hlen1] at hlen2
  exact absurd hlen2 (by decide)

/-- C3: the claim is false.  With a subtract normalization active on `stA`,
a divide `normalize` call with an incompatibly shaped reference returns
failure but has already cleared the cached normalization volume (the
operation tag stays `subtract`): a partial mutation, not a no-op. -/
theorem C3_counterexample :
    (stAsub.normalize NormOp.divide 1 none none (some refSmall) false).1 =
      false ∧
    stAsub._norm.isSome = true ∧
    (stAsub.normalize NormOp.divide 1 none none (some refSmall)
        false).2._norm = none ∧
    (stAsub.normalize NormOp.divide 1 none none (some refSmall)
        false).2._norm_operation = some NormOp.subtract ∧
    (stAsub.normalize NormOp.divide 1 none none (some refSmall) false).2 ≠
      stAsub := by
  decide

/-- C4: the claim is false.  A `normalize` call on a fresh engine that
supplies only the left endpoint and no reference returns success, not
failure, and mutates the state (it sets the operation tag while leaving
the cache empty). -/
theorem C4_counterexample :
    (stA.normalize NormOp.subtract 1 (some 0) none none false).1 = true ∧
    (stA.normalize NormOp.subtract 1 (some 0) none none false).2 ≠ stA := by
  decide

/-- C5: on a stack of shape `(10, 100, 100)`, `mask(pos=(10,10),
size=(50,50))` stores the crop `rows [10, 60), cols [10, 60)`, and a
second `mask(pos=(5,5), size=(20,20))` composes cumulatively to the crop
`rows [15, 35), cols [15, 35)` — the same crop a single mask call on the
second rectangle offset by the first rectangle's origin stores. -/
theorem C5_mask_composition :
    (stBig.mask (10, 10) (50, 50))._mask = some ⟨10, 60, 10, 60⟩ ∧
    ((stBig.mask (10, 10) (50, 50)).mask (5, 5) (20, 20))._mask =
      some ⟨15, 35, 15, 35⟩ ∧
    (stBig.mask (15, 15) (20, 20))._mask = some ⟨15, 35, 15, 35⟩ := by
  decide

/-- C6: the claim is false.  On the stack `rawSmall5` of shape `(1, 5, 5)`
with the crop `rows [0, 2), cols [0, 2)` active, requesting the region
`pos=(0,0), size=(4,4)` is clamped against the raw bound 5, not the
current bound 2, and the stored crop `rows [0, 4), cols [0, 4)` extends
past the previous crop's bounds. -/
theorem C6_counterexample :
    (stSmall5.mask (0, 0) (2, 2))._mask = some ⟨0, 2, 0, 2⟩ ∧
    ((stSmall5.mask (0, 0) (2, 2)).mask (0, 0) (4, 4))._mask =
      some ⟨0, 4, 0, 4⟩ ∧
    ¬((⟨0, 4, 0, 4⟩ : MaskSlices).xStop ≤ (⟨0, 2, 0, 2⟩ : MaskSlices).xStop) := by
  decide

/-- C8: the claim is false for states in which a reduction is already
active: with the min reduction active on `stB`, `reduce(max)` followed by
`unravel()` leaves `current_image` equal to the raw stack, not to the
pre-reduction (min-reduced) value. -/
theorem C8_counterexample :
    stBmin.image = [[[(0 : ℚ)]]] ∧
    ((stBmin.reduce (some ReduceOp.rmax)).unravel).image = rawB ∧
    ((stBmin.reduce (some ReduceOp.rmax)).unravel).image ≠ stBmin.image := by
  decide

/-- C1 (amended): a successful range normalization computes its cached
volume from the current displayed view `self.image` — with the active mask
and orientation already applied — not from the raw stack; the accessor
then applies mask and orientation to that cache a second time. -/
theorem C1_normalize_uses_current_view (s : ImageData) (op : NormOp)
    (beta : ℚ) (l r : ℤ)
    (h1 : s._reduce_operation = none) (h2 : s._norm_operation = none) :
    (s.normalize op beta (some l) (some r) none false).1 = true ∧
    (s.normalize op beta (some l) (some r) none false).2._norm =
      some (broadcastOp op s.image
        (scaleFrame beta (npMeanFrames (npSlice l (r + 1) s.image)))) := by
  unfold ImageData.normalize
  simp [h1, h2]

/-- Witness for `C1_normalize_uses_current_view` at `stA`. -/
theorem C1_normalize_uses_current_view_witness :
    stA._reduce_operation = none ∧ stA._norm_operation = none ∧
    ((stA.normalize NormOp.subtract 1 (some 0) (some 0) none false).1 = true ∧
     (stA.normalize NormOp.subtract 1 (some 0) (some 0) none false).2._norm =
       some (broadcastOp NormOp.subtract stA.image
         (scaleFrame 1 (npMeanFrames (npSlice 0 (0 + 1) stA.image))))) :=
  ⟨by decide, by decide,
    C1_normalize_uses_current_view stA NormOp.subtract 1 0 0 (by decide)
      (by decide)⟩

/-- C2 (amended): when the normalization cache is set it is the base of
the returned image regardless of any active reduction — the accessor's
precedence is normalization cache over reduction cache over raw. -/
theorem C2_norm_overrides_reduction (s : ImageData)
    (h : s._norm.isSome = true) :
    s.image = ({ s with _reduce_operation := none } : ImageData).image := by
  obtain ⟨n, hn⟩ := Option.isSome_iff_exists.mp h
  simp [ImageData.image, hn]

/-- Witness for `C2_norm_overrides_reduction` at `stBnormMin`, where the
min reduction is active and the normalization cache is set. -/
theorem C2_norm_overrides_reduction_witness :
    stBnormMin._norm.isSome = true ∧
    stBnormMin.image =
      ({ stBnormMin with _reduce_operation := none } : ImageData).image :=
  ⟨by decide, C2_norm_overrides_reduction stBnormMin (by decide)⟩

/-- C3 (amended): rejection on an incompatible reference shape is a strict
no-op only when no normalization is currently active; the call then
returns failure with the state unchanged.  (When a normalization is
active, the cached volume has already been cleared by the time of the
rejection — see `C3_counterexample`.) -/
theorem C3_shape_mismatch_noop_when_inactive (s ref : ImageData)
    (op : NormOp) (beta : ℚ) (l r : Option ℤ) (fc : Bool)
    (h1 : s._reduce_operation = none) (h2 : s._norm_operation = none)
    (h3 : frameShape (npMeanFrames ref.image) ≠ volTailShape s.image) :
    s.normalize op beta l r (some ref) fc = (false, s) := by
  unfold ImageData.normalize
  simp [h1, h2, h3]

/-- Witness for `C3_shape_mismatch_noop_when_inactive` at `stA` with the
incompatibly shaped reference `refSmall`. -/
theorem C3_shape_mismatch_noop_when_inactive_witness :
    stA._reduce_operation = none ∧ stA._norm_operation = none ∧
    frameShape (npMeanFrames refSmall.image) ≠ volTailShape stA.image ∧
    stA.normalize NormOp.divide 1 none none (some refSmall) false =
      (false, stA) :=
  ⟨by decide, by decide, by decide,
    C3_shape_mismatch_noop_when_inactive stA refSmall NormOp.divide 1 none
      none false (by decide) (by decide) (by decide)⟩

/-- C4 (amended): with no reduction and no normalization active,
`normalize` without a reference fails as a no-op only when both endpoints
are absent; when exactly one endpoint is supplied it succeeds vacuously,
setting the operation tag and leaving the cache untouched. -/
theorem C4_endpoint_guard (s : ImageData) (op : NormOp) (beta : ℚ)
    (h1 : s._reduce_operation = none) (h2 : s._norm_operation = none) :
    s.normalize op beta none none none false = (false, s) ∧
    (∀ l : ℤ, s.normalize op beta (some l) none none false =
      (true, { s with _norm_operation := some op })) ∧
    (∀ r : ℤ, s.normalize op beta none (some r) none false =
      (true, { s with _norm_operation := some op })) := by
  refine ⟨?_, fun l => ?_, fun r => ?_⟩ <;>
    (unfold ImageData.normalize; simp [h1, h2])

/-- Witness for `C4_endpoint_guard` at `stA` with endpoint 0. -/
theorem C4_endpoint_guard_witness :
    stA._reduce_operation = none ∧ stA._norm_operation = none ∧
    stA.normalize NormOp.subtract 1 none none none false = (false, stA) ∧
    stA.normalize NormOp.subtract 1 (some 0) none none false =
      (true, { stA with _norm_operation := some NormOp.subtract }) ∧
    stA.normalize NormOp.subtract 1 none (some 0) none false =
      (true, { stA with _norm_operation := some NormOp.subtract }) :=
  ⟨by decide, by decide,
    (C4_endpoint_guard stA NormOp.subtract 1 (by decide) (by decide)).1,
    (C4_endpoint_guard stA NormOp.subtract 1 (by decide) (by decide)).2.1 0,
    (C4_endpoint_guard stA NormOp.subtract 1 (by decide) (by decide)).2.2 0⟩

/-- C6 (amended): with a mask already active (and no orientation flag
set), a new mask request is clamped against the RAW volume's row/column
bounds — not the bounds of the currently displayed cropped volume — and
then offset by the existing mask's origin; the stored crop may therefore
extend past the previous crop's bounds (see `C6_counterexample`). -/
theorem C6_mask_clamps_to_raw (s : ImageData) (pos size : ℤ × ℤ)
    (m : MaskSlices)
    (ht : s._transposed = false) (hx : s._flipped_x = false)
    (hy : s._flipped_y = false) (hm : s._mask = some m) :
    (s.mask pos size)._mask = some
      { xStart := max 0 pos.1 + m.xStart
        xStop := min (volShape1 s._image : ℤ) (pos.1 + size.1) + m.xStart
        yStart := max 0 pos.2 + m.yStart
        yStop := min (volShape2 s._image : ℤ) (pos.2 + size.2) + m.yStart } := by
  unfold ImageData.mask
  simp [ht, hx, hy, hm]

/-- Witness for `C6_mask_clamps_to_raw` on `stSmall5` with the crop
`rows [0, 2), cols [0, 2)` active and the request `pos=(0,0), size=(4,4)`. -/
theorem C6_mask_clamps_to_raw_witness :
    (stSmall5.mask (0, 0) (2, 2))._transposed = false ∧
    (stSmall5.mask (0, 0) (2, 2))._flipped_x = false ∧
    (stSmall5.mask (0, 0) (2, 2))._flipped_y = false ∧
    (stSmall5.mask (0, 0) (2, 2))._mask = some ⟨0, 2, 0, 2⟩ ∧
    ((stSmall5.mask (0, 0) (2, 2)).mask (0, 0) (4, 4))._mask = some
      { xStart := max 0 (0 : ℤ) + (0 : ℤ)
        xStop := min (volShape1 (stSmall5.mask (0, 0) (2, 2))._image : ℤ)
          ((0 : ℤ) + (4 : ℤ)) + (0 : ℤ)
        yStart := max 0 (0 : ℤ) + (0 : ℤ)
        yStop := min (volShape2 (stSmall5.mask (0, 0) (2, 2))._image : ℤ)
          ((0 : ℤ) + (4 : ℤ)) + (0 : ℤ) } :=
  ⟨by decide, by decide, by decide, by decide,
    C6_mask_clamps_to_raw (stSmall5.mask (0, 0) (2, 2)) (0, 0) (4, 4)
      ⟨0, 2, 0, 2⟩ (by decide) (by decide) (by decide) (by decide)⟩

/-- C7: the toggle law.  From a state with no reduction active and no
normalization active, the same range `normalize` call twice in a row
(force off) succeeds both times and restores `current_image` to its value
before the first call. -/
theorem C7_normalize_toggle (s : ImageData) (op : NormOp) (beta : ℚ)
    (l r : ℤ)
    (h1 : s._reduce_operation = none) (h2 : s._norm_operation = none)
    (h3 : s._norm = none) :
    (s.normalize op beta (some l) (some r) none false).1 = true ∧
    ((s.normalize op beta (some l) (some r) none false).2.normalize op beta
        (some l) (some r) none false).1 = true ∧
    ((s.normalize op beta (some l) (some r) none false).2.normalize op beta
        (some l) (some r) none false).2.image = s.image := by
  obtain ⟨im, mt, c1, c2, c3, c4, mk0, tr, fx0, fy0, ro, no0, nop⟩ := s
  dsimp only at h1 h2 h3
  subst h1; subst h2; subst h3
  refine ⟨?_, ?_, ?_⟩ <;> (unfold ImageData.normalize; simp)

/-- Witness for `C7_normalize_toggle` at `stA` with range `[0, 0]`. -/
theorem C7_normalize_toggle_witness :
    stA._reduce_operation = none ∧ stA._norm_operation = none ∧
    stA._norm = none ∧
    ((stA.normalize NormOp.subtract 1 (some 0) (some 0) none false).1 =
      true ∧
     ((stA.normalize NormOp.subtract 1 (some 0) (some 0) none
          false).2.normalize NormOp.subtract 1 (some 0) (some 0) none
          false).1 = true ∧
     ((stA.normalize NormOp.subtract 1 (some 0) (some 0) none
          false).2.normalize NormOp.subtract 1 (some 0) (some 0) none
          false).2.image = stA.image) :=
  ⟨by decide, by decide, by decide,
    C7_normalize_toggle stA NormOp.subtract 1 0 0 (by decide) (by decide)
      (by decide)⟩

/-- C8 (amended): from every state with NO reduction active — whatever the
reduction caches hold — `reduce(kind)` followed by `unravel()` restores
`current_image`, and a second `reduce(kind)` right after the first is the
identity on the whole state (the existing cache entry, freshly computed or
left over from earlier activity, is reused without recomputation); on a
nonempty stack a freshly computed cache entry has frame-axis size 1. -/
theorem C8_reduce_unravel (s : ImageData) (kind : ReduceOp)
    (h1 : s._reduce_operation = none) :
    ((s.reduce (some kind)).unravel).image = s.image ∧
    (s.reduce (some kind)).reduce (some kind) = s.reduce (some kind) ∧
    (s._image ≠ [] → cacheField kind s = none →
      (cacheField kind (s.reduce (some kind))).map List.length = some 1) := by
  refine ⟨?_, ?_, fun h2 h3 => ?_⟩
  · unfold ImageData.reduce ImageData.unravel
    cases kind <;> dsimp only <;> split <;> simp [ImageData.image, h1]
  · unfold ImageData.reduce
    cases kind <;> dsimp only <;> split <;> simp_all
  · obtain ⟨f, fs, hv⟩ : ∃ f fs, s._image = f :: fs := by
      cases hv : s._image with
      | nil => exact absurd hv h2
      | cons f fs => exact ⟨f, fs, rfl⟩
    cases kind <;>
      simp only [cacheField] at h3 ⊢ <;>
      simp [ImageData.reduce, h3, hv, npMinVol, npMaxVol, npMeanVol,
        npStdVol]

/-- Witness for `C8_reduce_unravel` at `stB` with the min reduction, the
inner implications of the third conjunct discharged at the same input. -/
theorem C8_reduce_unravel_witness :
    stB._reduce_operation = none ∧
    ((stB.reduce (some ReduceOp.rmin)).unravel).image = stB.image ∧
    (stB.reduce (some ReduceOp.rmin)).reduce (some ReduceOp.rmin) =
      stB.reduce (some ReduceOp.rmin) ∧
    (cacheField ReduceOp.rmin (stB.reduce (some ReduceOp.rmin))).map
      List.length = some 1 :=
  ⟨by decide,
    (C8_reduce_unravel stB ReduceOp.rmin (by decide)).1,
    (C8_reduce_unravel stB ReduceOp.rmin (by decide)).2.1,
    (C8_reduce_unravel stB ReduceOp.rmin (by decide)).2.2 (by decide)
      (by decide)⟩

/-- C9: after any sequence of interface operations, `reset()` returns
`current_image` to the originally loaded raw stack, and neither the raw
storage nor the metadata sequence is ever touched. -/
theorem C9_reset_restores_raw (v : Vol) (md : List MetaRecord)
    (ops : List Op) :
    ((applyOps ops (ImageData.init v md)).reset).image = v ∧
    ((applyOps ops (ImageData.init v md)).reset)._image = v ∧
    ((applyOps ops (ImageData.init v md)).reset)._meta = md := by
  have hi : (applyOps ops (ImageData.init v md))._image = v :=
    applyOps_image_field ops (ImageData.init v md)
  have hm : (applyOps ops (ImageData.init v md))._meta = md :=
    applyOps_meta_field ops (ImageData.init v md)
  refine ⟨?_, ?_, ?_⟩
  · rw [reset_image_eval, hi]
  · show (applyOps ops (ImageData.init v md))._image = v
    exact hi
  · show (applyOps ops (ImageData.init v md))._meta = md
    exact hm

/-- C10: `n_images` always reports the frame count of the raw loaded
stack, and no sequence of interface operations changes it — in particular
it still reports the raw frame count while a reduction is active. -/
theorem C10_n_images_invariant (v : Vol) (md : List MetaRecord)
    (ops : List Op) :
    (applyOps ops (ImageData.init v md)).n_images = v.length := by
  show (applyOps ops (ImageData.init v md))._image.length = v.length
  rw [applyOps_image_field]
  rfl

end Blitz
